import Mathlib

/- Verification of the UniFi controller client (src/lib/index.js): a shallow
embedding of the request executor `_apiRequest`, the authentication routine
`_authenticate`, the websocket frame handler of `startWebsocketListener`,
and the parameter handling of the query wrappers, together with theorems
about the behaviours the specification ascribes to them. -/

/-- Model of a JavaScript JSON value as produced by JSON.parse.  Numbers are
kept as their source lexeme: no property examined here inspects a numeric
value, only the structure of parsed frames matters. -/
inductive Json where
  | null : Json
  | bool (b : Bool) : Json
  | num (lexeme : String) : Json
  | str (s : String) : Json
  | arr (elems : List Json) : Json
  | obj (fields : List (String × Json)) : Json

/-- Model of JSON whitespace skipping. -/
def skipWs : List Char → List Char
  | c :: cs => if c = ' ' ∨ c = '\t' ∨ c = '\n' ∨ c = '\r' then skipWs cs else c :: cs
  | [] => []

/-- Parses the body of a JSON string literal after the opening quote,
returning the decoded characters and the input remaining after the closing
quote.  Unicode escapes are not supported: no frame examined here uses
them. -/
def parseStringBody : List Char → Option (List Char × List Char)
  | [] => none
  | '"' :: cs => some ([], cs)
  | '\\' :: e :: cs =>
    match (match e with
           | '"' => some '"'
           | '\\' => some '\\'
           | '/' => some '/'
           | 'n' => some '\n'
           | 't' => some '\t'
           | 'r' => some '\r'
           | _ => none) with
    | some c => (parseStringBody cs).map (fun p => (c :: p.1, p.2))
    | none => none
  | c :: cs => (parseStringBody cs).map (fun p => (c :: p.1, p.2))

/-- Takes a maximal run of decimal digits. -/
def takeDigits : List Char → List Char × List Char
  | c :: cs =>
    if c.isDigit then
      let p := takeDigits cs
      (c :: p.1, p.2)
    else ([], c :: cs)
  | [] => ([], [])

/-- Parses a JSON number (sign, integer part, optional fraction and
exponent), returning its lexeme. -/
def parseNumberFrom (cs : List Char) : Option (Json × List Char) :=
  let (neg, cs1) := match cs with
                    | '-' :: r => (['-'], r)
                    | r => (([] : List Char), r)
  let (intPart, cs2) := takeDigits cs1
  if intPart = [] then none
  else
    let (fracPart, cs3) := match cs2 with
                           | '.' :: r =>
                             let p := takeDigits r
                             if p.1 = [] then ([], '.' :: r) else ('.' :: p.1, p.2)
                           | r => ([], r)
    let (expPart, cs4) := match cs3 with
                          | 'e' :: r | 'E' :: r =>
                            let (sgn, r1) := match r with
                                             | '+' :: r2 => (['+'], r2)
                                             | '-' :: r2 => (['-'], r2)
                                             | r2 => (([] : List Char), r2)
                            let p := takeDigits r1
                            if p.1 = [] then ([], cs3) else ('e' :: sgn ++ p.1, p.2)
                          | r => ([], r)
    some (Json.num (String.mk (neg ++ intPart ++ fracPart ++ expPart)), cs4)

mutual

/-- Fuel-indexed recursive-descent parser for one JSON value, modelling
JSON.parse as invoked at src/lib/index.js line 450. -/
def parseValue : Nat → List Char → Option (Json × List Char)
  | 0, _ => none
  | fuel + 1, cs =>
    match skipWs cs with
    | '"' :: r => (parseStringBody r).map (fun p => (Json.str (String.mk p.1), p.2))
    | 't' :: 'r' :: 'u' :: 'e' :: r => some (Json.bool true, r)
    | 'f' :: 'a' :: 'l' :: 's' :: 'e' :: r => some (Json.bool false, r)
    | 'n' :: 'u' :: 'l' :: 'l' :: r => some (Json.null, r)
    | '[' :: r =>
      (match skipWs r with
       | ']' :: r2 => some (Json.arr [], r2)
       | r2 => (parseElems fuel r2).map (fun p => (Json.arr p.1, p.2)))
    | '{' :: r =>
      (match skipWs r with
       | '}' :: r2 => some (Json.obj [], r2)
       | r2 => (parseFields fuel r2).map (fun p => (Json.obj p.1, p.2)))
    | c :: r => if c = '-' ∨ c.isDigit then parseNumberFrom (c :: r) else none
    | [] => none

/-- Parses the comma-separated elements of a non-empty JSON array up to the
closing bracket. -/
def parseElems : Nat → List Char → Option (List Json × List Char)
  | 0, _ => none
  | fuel + 1, cs => do
    let (v, r) ← parseValue fuel cs
    match skipWs r with
    | ',' :: r2 =>
      let (vs, r3) ← parseElems fuel r2
      pure (v :: vs, r3)
    | ']' :: r2 => pure ([v], r2)
    | _ => none

/-- Parses the comma-separated members of a non-empty JSON object up to the
closing brace. -/
def parseFields : Nat → List Char → Option (List (String × Json) × List Char)
  | 0, _ => none
  | fuel + 1, cs =>
    match skipWs cs with
    | '"' :: r => do
      let (k, r1) ← parseStringBody r
      match skipWs r1 with
      | ':' :: r2 => do
        let (v, r3) ← parseValue fuel r2
        match skipWs r3 with
        | ',' :: r4 =>
          let (fs, r5) ← parseFields fuel r4
          pure ((String.mk k, v) :: fs, r5)
        | '}' :: r4 => pure ([(String.mk k, v)], r4)
        | _ => none
      | _ => none
    | _ => none

end

/-- Model of JSON.parse: parse one value and require only whitespace to
remain.  A `none` result models the thrown SyntaxError, caught at
src/lib/index.js line 451. -/
def parseJson (s : String) : Option Json :=
  match parseValue (s.length * 2 + 2) s.data with
  | some (v, rest) => if skipWs rest = [] then some v else none
  | none => none

/-- Result of the JavaScript member access `base.k`: accessing a member of
undefined or null throws a TypeError; member access on an object looks the
key up; member access on any other value yields undefined for the property
names this client uses. -/
inductive JsAccess where
  | thrown : JsAccess
  | val (v : Option Json) : JsAccess

/-- Looks a key up in a parsed JSON object, the last occurrence winning as
in JavaScript object construction. -/
def jsGetField (fields : List (String × Json)) (k : String) : Option Json :=
  fields.foldl (fun acc f => if f.1 = k then some f.2 else acc) none

/-- Model of the JavaScript member access `base.k`, where an outer `none`
models the value undefined. -/
def jsGet : Option Json → String → JsAccess
  | none, _ => JsAccess.thrown
  | some Json.null, _ => JsAccess.thrown
  | some (Json.obj fields), k => JsAccess.val (jsGetField fields k)
  | some _, _ => JsAccess.val none

/-- The value of `e.key` for a non-null JSON value `e`, as read at
src/lib/index.js line 480. -/
def jsKeyOf (e : Json) : Option Json :=
  match e with
  | Json.obj fs => jsGetField fs ("key")
  | _ => none

/-- Observable effect of running the websocket message handler
(src/lib/index.js lines 446-489) on one frame: the list of emitted events in
order, each a pair of the event name value and the payload value (`none`
models the JavaScript value undefined); whether the handler threw a
TypeError that escapes it; and whether the handler closed the connection
(the handler contains no close call, so this field is always false). -/
structure WsEffect where
  emitted : List (Option Json × Option Json)
  threw : Bool
  closedConnection : Bool

/-- Model of `msg.data.forEach(event => ... self.emit(event.key, event))`
(src/lib/index.js lines 477-481): events already emitted stay emitted when a
later element makes `event.key` throw. -/
def emitEvents : List Json → List (Option Json × Option Json) × Bool
  | [] => ([], false)
  | e :: es =>
    match jsGet (some e) ("key") with
    | JsAccess.thrown => ([], true)
    | JsAccess.val k =>
      let rest := emitEvents es
      ((k, some e) :: rest.1, rest.2)

/-- Model of the message handler body after JSON.parse succeeded
(src/lib/index.js lines 456-488): `msg.meta.message` is read with no guard,
so a frame without a `meta` member throws; a frame whose `meta.message` is
the string "events" has `msg.data` iterated with forEach, which throws when
`data` is not an array; any other frame has one event emitted, named by the
value of `msg.meta.message`, with `msg.data` as payload. -/
def handleMessage (msg : Json) : WsEffect :=
  match jsGet (some msg) ("meta") with
  | JsAccess.thrown => ⟨[], true, false⟩
  | JsAccess.val metaV =>
    match jsGet metaV ("message") with
    | JsAccess.thrown => ⟨[], true, false⟩
    | JsAccess.val msgV =>
      let isEvents : Bool := match msgV with
                             | some (Json.str m) => m = "events"
                             | _ => false
      if isEvents then
        match jsGet (some msg) ("data") with
        | JsAccess.thrown => ⟨[], true, false⟩
        | JsAccess.val dataV =>
          match dataV with
          | some (Json.arr es) =>
            let p := emitEvents es
            ⟨p.1, p.2, false⟩
          | _ => ⟨[], true, false⟩
      else
        match jsGet (some msg) ("data") with
        | JsAccess.thrown => ⟨[], true, false⟩
        | JsAccess.val dataV => ⟨[(msgV, dataV)], false, false⟩

/-- Model of the whole websocket message handler (src/lib/index.js lines
446-489): a frame that fails JSON.parse is logged and dropped, everything
else is dispatched by `handleMessage`. -/
def handleFrame (s : String) : WsEffect :=
  match parseJson s with
  | none => ⟨[], false, false⟩
  | some msg => handleMessage msg

/-- Model of the client's mutable session fields (src/lib/index.js lines
30-31) together with the `_authenticationInProgress` flag read and written
at lines 84, 114, 122 and 148; `none` models null / an unset field. -/
structure Session where
  session : Option String
  csrfToken : Option String
  authInProgress : Bool
deriving DecidableEq

/-- Constructor configuration relevant to the executor: the login username
and password (src/lib/index.js lines 24-25). -/
structure Config where
  user : String
  password : String
deriving DecidableEq

/-- Options accepted by `_apiRequest` (src/lib/index.js lines 43 and
60-62). -/
structure ReqOptions where
  method : Option String
  path : Option String
deriving DecidableEq

/-- Credential headers attached to a request (src/lib/index.js lines 52-55):
present if and only if `_session` is truthy, so absent for null and for the
empty string; the pair holds the cookie header value and the x-csrf-token
header value, the latter being the possibly-null `_csrfToken`. -/
def mkHeaders (st : Session) : Option (String × Option String) :=
  match st.session with
  | some tok => if tok = "" then none else some ("unifises=" ++ tok ++ ";", st.csrfToken)
  | none => none

/-- One HTTP request as handed to the transport (src/lib/index.js lines
57-69): method, url, body, and the credential headers computed from the
session state at send time. -/
structure SentRequest where
  method : String
  url : String
  data : String
  headers : Option (String × Option String)
deriving DecidableEq

/-- Builds the request actually sent for the given session state, options
and body (src/lib/index.js lines 47-65): the method defaults to GET and the
url to "/". -/
def mkRequest (st : Session) (opts : ReqOptions) (body : String) : SentRequest :=
  { method := opts.method.getD ("GET")
    url := opts.path.getD ("/")
    data := body
    headers := mkHeaders st }

/-- Outcome of one transport send as observed by the axios callbacks:
success carries the response body and the set-cookie response headers;
`certError` is an error whose code is DEPTH_ZERO_SELF_SIGNED_CERT
(src/lib/index.js line 78); `httpError` is an error carrying a response
with the given status; `netError` is an error carrying no response at all
(a transport failure other than the certificate case). -/
inductive AxiosOutcome where
  | success (data : Json) (setCookies : List String) : AxiosOutcome
  | certError : AxiosOutcome
  | httpError (status : Nat) : AxiosOutcome
  | netError : AxiosOutcome

/-- Status carried by an outcome's HTTP response, if any. -/
def statusOf : AxiosOutcome → Option Nat
  | AxiosOutcome.httpError s => some s
  | _ => none

/-- Error value a promise rejects with: either the fresh
`new Error('Self signed certificate')` of src/lib/index.js line 80, or the
original axios error object, identified by its outcome. -/
inductive JsError where
  | selfSigned : JsError
  | fromOutcome (o : AxiosOutcome) : JsError

/-- Final disposition of the promise returned by `_apiRequest`: resolved,
rejected, never settled (the unguarded `error.response.status` access at
src/lib/index.js line 84 throws inside the async catch handler, so neither
resolve nor reject is ever reached), or out of model fuel. -/
inductive ApiResult where
  | ok (data : Json) (setCookies : List String) : ApiResult
  | rejected (e : JsError) : ApiResult
  | unsettled : ApiResult
  | outOfFuel : ApiResult

/-- JSON.stringify of the login body of src/lib/index.js lines 116-120. -/
def loginBody (cfg : Config) : String :=
  "\x7b\"username\":\"" ++ cfg.user ++ "\",\"password\":\"" ++ cfg.password ++
    "\",\"remember\":true\x7d"

/-- Tests whether the first character list starts with the second. -/
def charsStartWith : List Char → List Char → Bool
  | _, [] => true
  | [], _ :: _ => false
  | c :: cs, p :: ps => c = p && charsStartWith cs ps

/-- Tests whether a string starts with the given pattern, as the anchored
regexes of src/lib/index.js lines 129 and 134 do. -/
def strStartsWith (s pat : String) : Bool := charsStartWith s.data pat.data

/-- Splits a character list at every occurrence of the separator, keeping
empty pieces, as JavaScript String.prototype.split does. -/
def splitOnChar (sep : Char) : List Char → List (List Char)
  | [] => [[]]
  | c :: cs =>
    let r := splitOnChar sep cs
    if c = sep then [] :: r
    else match r with
         | h :: t => (c :: h) :: t
         | [] => [[c]]

/-- Model of `cookie.split(';')` (src/lib/index.js line 126). -/
def splitSemis (s : String) : List String := (splitOnChar ';' s.data).map String.mk

/-- Applies one attribute of a set-cookie header to the session state,
modelling the switch of src/lib/index.js lines 127-139: an attribute
matching ^unifises= stores the rest as the session token, an attribute
matching ^csrf_token= stores the rest as the csrf token. -/
def parseCookieAttr (st : Session) (attr : String) : Session :=
  if strStartsWith attr ("unifises=") then { st with session := some (attr.drop 9) }
  else if strStartsWith attr ("csrf_token=") then { st with csrfToken := some (attr.drop 11) }
  else st

/-- Applies one set-cookie header: the cookie string is split on ";" and
each attribute is inspected (src/lib/index.js lines 125-139). -/
def applyCookie (st : Session) (cookie : String) : Session :=
  (splitSemis cookie).foldl parseCookieAttr st

/-- Applies all set-cookie headers of a login response in order
(src/lib/index.js lines 124-141); an absent header is the empty list and
leaves the session unchanged. -/
def applySetCookies (st : Session) (cookies : List String) : Session :=
  cookies.foldl applyCookie st

/-- Model of `_apiRequest` (src/lib/index.js lines 43-103) with the body of
`_authenticate` (lines 108-153) inlined at its call site (line 86).  The
transport is the oracle `resp`: the n-th send overall, counted by the
length of the accumulated trace, receives outcome `resp n`.  Fuel bounds
only the recursion depth of the model; exhausting it yields the marker
`ApiResult.outOfFuel`.  The function returns the final session state, the
trace of all requests sent, and the disposition of the promise.  On a 401
with no authentication in progress, the login request is sent with the flag
set (line 114), the flag is cleared and the set-cookie headers are folded
into the session when the login settles (lines 122-141, 148), and then the
original `opts` and `body` are re-sent unchanged by the recursive call of
line 91; a failed login rejects with the login's error (line 88).  On a 401
during authentication, and on any other http error, the original error is
rejected (line 99).  An error with no response makes line 84 throw inside
the async catch handler, so the promise never settles. -/
def apiRequest (resp : Nat → AxiosOutcome) (cfg : Config) :
    Nat → Session → List SentRequest → ReqOptions → String →
    Session × List SentRequest × ApiResult
  | 0, st, tr, _, _ => (st, tr, ApiResult.outOfFuel)
  | fuel + 1, st, tr, opts, body =>
    let req := mkRequest st opts body
    let outcome := resp tr.length
    let tr1 := tr ++ [req]
    match outcome with
    | AxiosOutcome.success d cookies => (st, tr1, ApiResult.ok d cookies)
    | AxiosOutcome.certError => (st, tr1, ApiResult.rejected JsError.selfSigned)
    | AxiosOutcome.httpError status =>
      if st.authInProgress = false ∧ status = 401 then
        match apiRequest resp cfg fuel { st with authInProgress := true } tr1
            ⟨some ("POST"), some ("/login")⟩ (loginBody cfg) with
        | (st2, tr2, ApiResult.ok _ cookies) =>
          let st3 := applySetCookies { st2 with authInProgress := false } cookies
          apiRequest resp cfg fuel st3 tr2 opts body
        | (st2, tr2, ApiResult.rejected e) =>
          ({ st2 with authInProgress := false }, tr2, ApiResult.rejected e)
        | (st2, tr2, ApiResult.unsettled) => (st2, tr2, ApiResult.unsettled)
        | (st2, tr2, ApiResult.outOfFuel) => (st2, tr2, ApiResult.outOfFuel)
      else (st, tr1, ApiResult.rejected (JsError.fromOutcome (AxiosOutcome.httpError status)))
    | AxiosOutcome.netError =>
      if st.authInProgress = false then (st, tr1, ApiResult.unsettled)
      else (st, tr1, ApiResult.rejected (JsError.fromOutcome AxiosOutcome.netError))

/-- State shared by the concurrent triggers of authentication: the
`_authenticationInProgress` flag, the `_session` cookie, and the number of
login requests currently outstanding (sent but not yet settled). -/
structure AuthRaceState where
  authenticationInProgress : Bool
  session : Option String
  loginsInFlight : Nat
deriving DecidableEq

/-- Model of the synchronous step taken by the 401-handling path of
`_apiRequest` (src/lib/index.js lines 84-86 together with line 114): the
guard `!self._authenticationInProgress` is evaluated and, when it passes,
`_authenticate` is entered, which sets the flag and issues the login POST —
all before the next suspension point, so the whole step is atomic in the
JavaScript execution model.  Returns the new state and whether a login was
started. -/
def fireApi401Trigger (s : AuthRaceState) : AuthRaceState × Bool :=
  if s.authenticationInProgress = false then
    ({ s with authenticationInProgress := true, loginsInFlight := s.loginsInFlight + 1 }, true)
  else (s, false)

/-- Model of the synchronous step taken by `startWebsocketListener`'s
initial credential acquisition (src/lib/index.js lines 426-428 together
with line 114): the guard is `!self._session` only — the
`_authenticationInProgress` flag is not consulted — and when the guard
passes `_authenticate` is entered, setting the flag and issuing the login
POST. -/
def fireWsAuthTrigger (s : AuthRaceState) : AuthRaceState × Bool :=
  if s.session = none then
    ({ s with authenticationInProgress := true, loginsInFlight := s.loginsInFlight + 1 }, true)
  else (s, false)

/-- Model of a login request settling (src/lib/index.js lines 121-151): the
flag is cleared unconditionally and a successful login stores the received
session token. -/
def completeLogin (s : AuthRaceState) (ok : Bool) (tok : String) : AuthRaceState :=
  { authenticationInProgress := false
    session := if ok then some tok else s.session
    loginsInFlight := s.loginsInFlight - 1 }

/-- Filter options accepted by the query wrappers (src/lib/index.js lines
157-161, 266-271, 323-327): `none` models an omitted field. -/
structure FilterOptions where
  start : Option Int
  limit : Option Int
  archived : Option Bool
  period : Option Int
deriving DecidableEq

/-- Filter body built by getAlarms (src/lib/index.js lines 175-179). -/
structure AlarmFilter where
  _start : Int
  _limit : Int
  archived : Bool
deriving DecidableEq

/-- Filter body built by getEvents (src/lib/index.js lines 285-289). -/
structure EventFilter where
  _start : Int
  _limit : Int
  within : Int
deriving DecidableEq

/-- Filter body built by getRogueAP (src/lib/index.js lines 341-344). -/
structure RogueApFilter where
  _limit : Int
  within : Int
deriving DecidableEq

/-- The filter getAlarms sends (src/lib/index.js lines 175-179): the
JavaScript comparison `options.start > 0` is false when the field is
undefined, and `options.archived || false` is false for an absent field. -/
def alarmsFilter (o : FilterOptions) : AlarmFilter :=
  { _start := match o.start with
              | some x => if 0 < x then x else 0
              | none => 0
    _limit := match o.limit with
              | some x => if 0 < x then x else 100
              | none => 100
    archived := o.archived.getD false }

/-- The filter getEvents sends (src/lib/index.js lines 285-289). -/
def eventsFilter (o : FilterOptions) : EventFilter :=
  { _start := match o.start with
              | some x => if 0 < x then x else 0
              | none => 0
    _limit := match o.limit with
              | some x => if 0 < x then x else 100
              | none => 100
    within := match o.period with
              | some x => if 1 < x then x else 1
              | none => 1 }

/-- The filter getRogueAP sends (src/lib/index.js lines 341-344). -/
def rogueApFilter (o : FilterOptions) : RogueApFilter :=
  { _limit := match o.limit with
              | some x => if 0 < x then x else 100
              | none => 100
    within := match o.period with
              | some x => if 1 < x then x else 1
              | none => 1 }

/-- Tests whether a character belongs to the character class [0-9A-Fa-f]. -/
def isHexChar (c : Char) : Bool :=
  (('0' ≤ c && c ≤ '9') || ('A' ≤ c && c ≤ 'F') || ('a' ≤ c && c ≤ 'f'))

/-- Tests whether the input starts with n repetitions of the regex group
([0-9A-Fa-f]{2}[:-]). -/
def macGroups : Nat → List Char → Bool
  | 0, _ => true
  | n + 1, a :: b :: c :: cs =>
    isHexChar a && isHexChar b && (c = ':' || c = '-') && macGroups n cs
  | _ + 1, _ => false

/-- Unanchored search for the regex ([0-9A-Fa-f]{2}[:-]){5} of
src/lib/index.js lines 213 and 250: the pattern may match at any offset. -/
def macRegexTest : List Char → Bool
  | [] => false
  | cs@(_ :: rest) => macGroups 5 cs || macRegexTest rest

/-- Tests a candidate mac address exactly as `macs[i].match(...)` does at
src/lib/index.js lines 213 and 250. -/
def isValidMacEntry (s : String) : Bool := macRegexTest s.data

/-- The macs argument of getClients / getDevices: a string, an array of
strings, or a value of any other type. -/
inductive MacsArg where
  | str (s : String) : MacsArg
  | arr (ms : List String) : MacsArg
  | other : MacsArg
deriving DecidableEq

/-- What a query wrapper does before its promise can settle: reject with an
error message without any network call, or issue the request with the given
path and body through the executor. -/
inductive WrapperStep where
  | reject (msg : String) : WrapperStep
  | request (path : String) (body : String) : WrapperStep
deriving DecidableEq

/-- JSON.stringify of the one-field object holding `macs`, sent by
getClients and getDevices (src/lib/index.js lines 218 and 255). -/
def stringifyMacs (ms : List String) : String :=
  "\x7b\"macs\":[" ++ String.intercalate (",") (ms.map (fun m => "\"" ++ m ++ "\"")) ++ "]\x7d"

/-- Shared validation-and-dispatch logic of getClients and getDevices
(src/lib/index.js lines 203-218 and 240-255), parameterized by the endpoint
tail: a single string is wrapped into a one-element array; a non-array is
rejected; an array with an entry failing the mac regex is rejected; only a
fully valid array reaches the executor. -/
def macFilteredQuery (endpointTail : String) (macs : MacsArg) (site : String) : WrapperStep :=
  match macs with
  | MacsArg.other =>
    WrapperStep.reject ("Filter must be a single mac address or an array of multiple mac addresses")
  | MacsArg.str s =>
    if isValidMacEntry s then
      WrapperStep.request ("/s/" ++ site ++ "/stat/" ++ endpointTail) (stringifyMacs [s])
    else WrapperStep.reject ("Invalid mac address specified")
  | MacsArg.arr ms =>
    if ms.all isValidMacEntry then
      WrapperStep.request ("/s/" ++ site ++ "/stat/" ++ endpointTail) (stringifyMacs ms)
    else WrapperStep.reject ("Invalid mac address specified")

/-- Validation-and-dispatch step of getClients (src/lib/index.js lines
197-226). -/
def getClientsStep (macs : MacsArg) (site : String) : WrapperStep :=
  macFilteredQuery ("sta") macs site

/-- Validation-and-dispatch step of getDevices (src/lib/index.js lines
234-263). -/
def getDevicesStep (macs : MacsArg) (site : String) : WrapperStep :=
  macFilteredQuery ("device") macs site

/-- Decides whether a macs argument is one the validation of getClients /
getDevices refuses: a value that is neither string nor array, a string
failing the mac regex, or an array with an entry failing it. -/
def badMacFilter : MacsArg → Bool
  | MacsArg.other => true
  | MacsArg.str s => !isValidMacEntry s
  | MacsArg.arr ms => ms.any (fun m => !isValidMacEntry m)

/-- The value `_apiRequest` resolves with (src/lib/index.js lines 72-75):
the response body together with the response headers. -/
structure ApiResponse where
  data : Json
  headers : List String

/-- Value a query wrapper resolves with: either the full response envelope
(body plus headers) or the result of the member access
`response.data.data`. -/
inductive Resolved where
  | envelope (r : ApiResponse) : Resolved
  | inner (v : JsAccess) : Resolved

/-- Fulfillment callback of getSites (src/lib/index.js line 389): the full
envelope is passed through. -/
def getSitesResolve (r : ApiResponse) : Resolved := Resolved.envelope r

/-- Fulfillment callback of getAlarms (src/lib/index.js line 183). -/
def getAlarmsResolve (r : ApiResponse) : Resolved :=
  Resolved.inner (jsGet (some r.data) ("data"))

/-- Fulfillment callback of getClients (src/lib/index.js line 220). -/
def getClientsResolve (r : ApiResponse) : Resolved :=
  Resolved.inner (jsGet (some r.data) ("data"))

/-- Fulfillment callback of getDevices (src/lib/index.js line 257). -/
def getDevicesResolve (r : ApiResponse) : Resolved :=
  Resolved.inner (jsGet (some r.data) ("data"))

/-- Fulfillment callback of getEvents (src/lib/index.js line 293). -/
def getEventsResolve (r : ApiResponse) : Resolved :=
  Resolved.inner (jsGet (some r.data) ("data"))

/-- Fulfillment callback of getHealth (src/lib/index.js line 314). -/
def getHealthResolve (r : ApiResponse) : Resolved :=
  Resolved.inner (jsGet (some r.data) ("data"))

/-- Fulfillment callback of getRogueAP (src/lib/index.js line 348). -/
def getRogueApResolve (r : ApiResponse) : Resolved :=
  Resolved.inner (jsGet (some r.data) ("data"))

/-- Fulfillment callback of getRoutes (src/lib/index.js line 369). -/
def getRoutesResolve (r : ApiResponse) : Resolved :=
  Resolved.inner (jsGet (some r.data) ("data"))

/-- Fulfillment callback of getSystemInfo (src/lib/index.js line 409). -/
def getSystemInfoResolve (r : ApiResponse) : Resolved :=
  Resolved.inner (jsGet (some r.data) ("data"))

lemma parseCookieAttr_authInProgress (st : Session) (a : String) :
    (parseCookieAttr st a).authInProgress = st.authInProgress := by
  unfold parseCookieAttr
  split
  · rfl
  · split <;> rfl

lemma applyCookie_authInProgress (st : Session) (c : String) :
    (applyCookie st c).authInProgress = st.authInProgress := by
  unfold applyCookie
  generalize splitSemis c = attrs
  induction attrs generalizing st with
  | nil => rfl
  | cons a as ih =>
    simpa [List.foldl, parseCookieAttr_authInProgress] using ih (parseCookieAttr st a)

lemma applySetCookies_authInProgress (st : Session) (cs : List String) :
    (applySetCookies st cs).authInProgress = st.authInProgress := by
  unfold applySetCookies
  induction cs generalizing st with
  | nil => rfl
  | cons c cs ih =>
    simpa [List.foldl, applyCookie_authInProgress] using ih (applyCookie st c)

lemma apiRequest_401_retry_trace
    (resp : Nat → AxiosOutcome) (cfg : Config) (f : Nat) (st : Session)
    (opts : ReqOptions) (body : String) (d : Json) (cookies : List String)
    (hflag : st.authInProgress = false)
    (h0 : resp 0 = AxiosOutcome.httpError 401)
    (h1 : resp 1 = AxiosOutcome.success d cookies)
    (h2 : statusOf (resp 2) ≠ some 401) :
    (apiRequest resp cfg (f + 2) st [] opts body).2.1 =
      [mkRequest st opts body,
       mkRequest { st with authInProgress := true } ⟨some ("POST"), some ("/login")⟩ (loginBody cfg),
       mkRequest (applySetCookies { st with authInProgress := false } cookies) opts body] := by
  show (apiRequest resp cfg ((f + 1) + 1) st [] opts body).2.1 = _
  rw [apiRequest]
  simp only [List.length_nil, h0, hflag]
  norm_num
  rw [apiRequest]
  simp only [List.length_cons, List.length_nil, Nat.zero_add, h1]
  rw [apiRequest]
  simp only [List.cons_append, List.nil_append, List.length_cons, List.length_nil, Nat.zero_add]
  rcases hr2 : resp 2 with d2 | _ | s2 | _ <;>
    simp_all [statusOf, applySetCookies_authInProgress]

/-- C6: an error whose code is DEPTH_ZERO_SELF_SIGNED_CERT makes
`_apiRequest` reject immediately with the distinct error value
`new Error('Self signed certificate')` — not with the generic original
error — leaving the session state (including the authentication flag)
untouched and sending exactly one request: no login is issued and the
request is never retried. -/
theorem c6_cert_error_immediate
    (resp : Nat → AxiosOutcome) (cfg : Config) (f : Nat) (st : Session)
    (tr : List SentRequest) (opts : ReqOptions) (body : String)
    (h : resp tr.length = AxiosOutcome.certError) :
    apiRequest resp cfg (f + 1) st tr opts body =
      (st, tr ++ [mkRequest st opts body], ApiResult.rejected JsError.selfSigned) := by
  rw [apiRequest]
  simp [h]

/-- Witness for C6 at a concrete input: a certificate rejection on the
first send of a health query. -/
theorem c6_cert_error_immediate_witness :
    (fun _ => AxiosOutcome.certError) (List.length ([] : List SentRequest)) =
        AxiosOutcome.certError ∧
      apiRequest (fun _ => AxiosOutcome.certError) ⟨("u"), ("p")⟩ (0 + 1)
          ⟨none, none, false⟩ [] ⟨some ("GET"), some ("/s/default/stat/health")⟩ ("") =
        (⟨none, none, false⟩,
         [⟨("GET"), ("/s/default/stat/health"), (""), none⟩],
         ApiResult.rejected JsError.selfSigned) :=
  ⟨rfl,
   c6_cert_error_immediate (fun _ => AxiosOutcome.certError) ⟨("u"), ("p")⟩ 0
     ⟨none, none, false⟩ [] ⟨some ("GET"), some ("/s/default/stat/health")⟩ ("") rfl⟩

/-- C1 counterexample: with an oracle that answers 401 to every send of the
original request and success (with a session cookie) to every login, the
first send receives a 401 while no authentication is in flight,
authentication succeeds, the re-sent request again receives a 401,
authentication again succeeds — and a third send of the original request
does occur: the trace of a run contains at least three sends whose url is
not the login endpoint, refuting "no third send of that request ever
occurs". -/
theorem c1_counterexample :
    3 ≤ ((apiRequest
        (fun n => if n % 2 = 0 then AxiosOutcome.httpError 401
                  else AxiosOutcome.success Json.null [("unifises=tok")])
        ⟨("u"), ("p")⟩ 4 ⟨none, none, false⟩ []
        ⟨some ("GET"), some ("/s/default/stat/health")⟩ ("")).2.1.filter
          (fun r => r.url != ("/login"))).length := by
  decide

/-- C1 amended: after a first 401 received while no authentication is in
flight, `_apiRequest` re-authenticates and re-sends the original request,
and if the re-sent request's outcome is anything but another 401 no third
send occurs — the trace is exactly first send, login, one re-send.  The
amendment: when the re-sent request again receives a 401, the flag has
already been cleared by the completed authentication, so the recursive call
re-authenticates and re-sends again — the retry is not bounded at one, as
`c1_counterexample` shows. -/
theorem c1_amended_single_retry
    (cfg : Config) (f : Nat) (st : Session) (opts : ReqOptions) (body : String)
    (d : Json) (cookies : List String) (o : AxiosOutcome)
    (hflag : st.authInProgress = false)
    (ho : statusOf o ≠ some 401) :
    (apiRequest
        (fun n => if n = 0 then AxiosOutcome.httpError 401
                  else if n = 1 then AxiosOutcome.success d cookies else o)
        cfg (f + 2) st [] opts body).2.1 =
      [mkRequest st opts body,
       mkRequest { st with authInProgress := true } ⟨some ("POST"), some ("/login")⟩ (loginBody cfg),
       mkRequest (applySetCookies { st with authInProgress := false } cookies) opts body] := by
  exact apiRequest_401_retry_trace _ cfg f st opts body d cookies hflag
    (by norm_num) (by norm_num) (by simpa [statusOf] using ho)

/-- Witness for C1's amended theorem at a concrete input: the re-sent
request succeeds, and the whole run sent exactly the original request, the
login, and the one re-send. -/
theorem c1_amended_single_retry_witness :
    (⟨none, none, false⟩ : Session).authInProgress = false ∧
      statusOf (AxiosOutcome.success Json.null []) ≠ some 401 ∧
      (apiRequest
          (fun n => if n = 0 then AxiosOutcome.httpError 401
                    else if n = 1 then
                      AxiosOutcome.success Json.null [("unifises=tok")]
                    else AxiosOutcome.success Json.null [])
          ⟨("u"), ("p")⟩ (0 + 2) ⟨none, none, false⟩ []
          ⟨some ("GET"), some ("/s/default/stat/health")⟩ ("")).2.1 =
        [mkRequest ⟨none, none, false⟩ ⟨some ("GET"), some ("/s/default/stat/health")⟩ (""),
         mkRequest ⟨none, none, true⟩ ⟨some ("POST"), some ("/login")⟩ (loginBody ⟨("u"), ("p")⟩),
         mkRequest (applySetCookies ⟨none, none, false⟩ [("unifises=tok")])
           ⟨some ("GET"), some ("/s/default/stat/health")⟩ ("")] :=
  ⟨rfl, by decide,
   c1_amended_single_retry ⟨("u"), ("p")⟩ 0 ⟨none, none, false⟩
     ⟨some ("GET"), some ("/s/default/stat/health")⟩ ("") Json.null [("unifises=tok")]
     (AxiosOutcome.success Json.null []) rfl (by decide)⟩

/-- C7: when the request is re-sent after a 401-triggered authentication,
the replayed request carries exactly the original method, url and body;
the only part that differs is the credential headers, which are computed
from the session state produced by folding the login response's set-cookie
headers into the session — that is, they reflect the just-completed
authentication. -/
theorem c7_replay_verbatim
    (cfg : Config) (f : Nat) (st : Session) (opts : ReqOptions) (body : String)
    (d : Json) (cookies : List String)
    (hflag : st.authInProgress = false) :
    (apiRequest
        (fun n => if n = 0 then AxiosOutcome.httpError 401
                  else AxiosOutcome.success d cookies)
        cfg (f + 2) st [] opts body).2.1 =
      [mkRequest st opts body,
       mkRequest { st with authInProgress := true } ⟨some ("POST"), some ("/login")⟩ (loginBody cfg),
       mkRequest (applySetCookies { st with authInProgress := false } cookies) opts body] ∧
    (mkRequest (applySetCookies { st with authInProgress := false } cookies) opts body).method =
      (mkRequest st opts body).method ∧
    (mkRequest (applySetCookies { st with authInProgress := false } cookies) opts body).url =
      (mkRequest st opts body).url ∧
    (mkRequest (applySetCookies { st with authInProgress := false } cookies) opts body).data =
      (mkRequest st opts body).data ∧
    (mkRequest (applySetCookies { st with authInProgress := false } cookies) opts body).headers =
      mkHeaders (applySetCookies { st with authInProgress := false } cookies) := by
  refine ⟨?_, rfl, rfl, rfl, rfl⟩
  exact apiRequest_401_retry_trace _ cfg f st opts body d cookies hflag
    (by norm_num) (by norm_num) (by simp [statusOf])

/-- Witness for C7 at a concrete input: a health query re-sent after the
login stored a fresh session cookie; the replay has the original method,
url and body, and its headers come from the refreshed session. -/
theorem c7_replay_verbatim_witness :
    (⟨none, none, false⟩ : Session).authInProgress = false ∧
      (apiRequest
          (fun n => if n = 0 then AxiosOutcome.httpError 401
                    else AxiosOutcome.success Json.null [("unifises=fresh")])
          ⟨("u"), ("p")⟩ (0 + 2) ⟨none, none, false⟩ []
          ⟨some ("GET"), some ("/s/default/stat/health")⟩ ("")).2.1 =
        [mkRequest ⟨none, none, false⟩ ⟨some ("GET"), some ("/s/default/stat/health")⟩ (""),
         mkRequest ⟨none, none, true⟩ ⟨some ("POST"), some ("/login")⟩ (loginBody ⟨("u"), ("p")⟩),
         mkRequest (applySetCookies ⟨none, none, false⟩ [("unifises=fresh")])
           ⟨some ("GET"), some ("/s/default/stat/health")⟩ ("")] :=
  ⟨rfl,
   (c7_replay_verbatim ⟨("u"), ("p")⟩ 0 ⟨none, none, false⟩
     ⟨some ("GET"), some ("/s/default/stat/health")⟩ ("") Json.null [("unifises=fresh")] rfl).1⟩

/-- C5: evaluation of the executor at the failing input.  A transport
failure that carries no HTTP response (and is not the certificate case),
received while no authentication is in flight, does not reject the promise
with the original error: the unguarded `error.response.status` access at
src/lib/index.js line 84 throws inside the async catch handler and the
promise never settles.  A non-401 HTTP failure, by contrast, is rejected
with the original error object unchanged. -/
theorem c5_net_error_unsettled :
    (apiRequest (fun _ => AxiosOutcome.netError) ⟨("u"), ("p")⟩ 1 ⟨none, none, false⟩ []
        ⟨some ("GET"), some ("/s/default/stat/health")⟩ ("")).2.2 = ApiResult.unsettled ∧
      (apiRequest (fun _ => AxiosOutcome.httpError 500) ⟨("u"), ("p")⟩ 1 ⟨none, none, false⟩ []
          ⟨some ("GET"), some ("/s/default/stat/health")⟩ ("")).2.2 =
        ApiResult.rejected (JsError.fromOutcome (AxiosOutcome.httpError 500)) :=
  ⟨rfl, rfl⟩

/-- C2 counterexample: from the initial state (flag clear, no session, no
login outstanding), the 401-handling path starts an authentication, leaving
`_authenticationInProgress` true with one login POST outstanding; while
that login is still in flight the websocket listener's startup trigger —
whose guard is only `!self._session` — starts a second login even though
the flag is true, so two login requests are then outstanding at once.  This
refutes "the second trigger never starts a login while
_authenticationInProgress is true". -/
theorem c2_counterexample :
    (fireApi401Trigger ⟨false, none, 0⟩).1.authenticationInProgress = true ∧
      (fireApi401Trigger ⟨false, none, 0⟩).1.loginsInFlight = 1 ∧
      (fireWsAuthTrigger (fireApi401Trigger ⟨false, none, 0⟩).1).2 = true ∧
      (fireWsAuthTrigger (fireApi401Trigger ⟨false, none, 0⟩).1).1.loginsInFlight = 2 := by
  decide

/-- C2 amended: the 401-handling path of `_apiRequest` alone does satisfy
the exclusion — its guard reads `_authenticationInProgress` and the guard,
the flag set and the login send happen in one synchronous step, so while
the flag is true this trigger never starts a login and its step leaves the
state unchanged.  The amendment: the guard of `startWebsocketListener`'s
initial credential acquisition checks only the absence of a session cookie,
not the flag, so that trigger can start a second concurrent login while an
authentication is in flight (see the counterexample). -/
theorem c2_amended_api401_excludes_overlap
    (s : AuthRaceState) (h : s.authenticationInProgress = true) :
    fireApi401Trigger s = (s, false) := by
  simp [fireApi401Trigger, h]

/-- Witness for C2's amended theorem at a concrete state: an authentication
is in flight and the 401 path starts no second login. -/
theorem c2_amended_api401_excludes_overlap_witness :
    (⟨true, none, 1⟩ : AuthRaceState).authenticationInProgress = true ∧
      fireApi401Trigger ⟨true, none, 1⟩ = (⟨true, none, 1⟩, false) :=
  ⟨rfl, c2_amended_api401_excludes_overlap ⟨true, none, 1⟩ rfl⟩

/-- C3 counterexample: the frame consisting of an empty JSON object parses
as JSON but lacks the meta field, and the handler does not drop it
silently: reading `msg.meta.message` at src/lib/index.js line 456 throws a
TypeError that escapes the message handler, so the frame is not "dropped
with no error raised"; zero events are emitted and the handler itself
closes nothing, but the claimed silent drop does not happen. -/
theorem c3_counterexample :
    handleFrame ("\x7b\x7d") = ⟨[], true, false⟩ := by
  rfl

/-- C3 amended: a frame that is not valid JSON is dropped exactly as
claimed — JSON.parse throws, the catch at src/lib/index.js lines 451-454
logs and returns, zero events are emitted, no error escapes to subscribers
and the handler does not close the connection.  The amendment: a frame
that parses as JSON but lacks the meta field is not covered by that catch;
it makes the handler throw (see the counterexample). -/
theorem c3_amended_non_json_dropped
    (s : String) (h : parseJson s = none) :
    handleFrame s = ⟨[], false, false⟩ := by
  unfold handleFrame
  rw [h]

/-- Witness for C3's amended theorem at the concrete frame of the claim:
`not-json` is not valid JSON and produces zero events, no thrown error and
no close. -/
theorem c3_amended_non_json_dropped_witness :
    parseJson ("not-json") = none ∧
      handleFrame ("not-json") = ⟨[], false, false⟩ :=
  ⟨rfl, c3_amended_non_json_dropped ("not-json") rfl⟩

lemma emitEvents_eq_map (es : List Json) (h : ∀ e ∈ es, e ≠ Json.null) :
    emitEvents es = (es.map (fun e => (jsKeyOf e, some e)), false) := by
  induction es with
  | nil => rfl
  | cons e es ih =>
    have he : e ≠ Json.null := h e (by simp)
    have hrest := ih (fun x hx => h x (by simp [hx]))
    cases e <;> simp_all [emitEvents, jsGet, jsKeyOf]

/-- C4: dispatch of decodable push frames.  For a frame that parses as a
JSON object whose meta member is an object whose message member is a
string: when the message is "events" and data is an array (of non-null
elements, as `event.key` is read from each), exactly one event is emitted
per element of data, in order, named by that element's key member and with
the element itself as payload; when the message is any other string,
exactly one event is emitted, named by that string, with the value of the
data member — verbatim, possibly undefined — as payload.  In both cases
the handler neither throws nor closes the connection. -/
theorem c4_dispatch
    (s : String) (fields metaFields : List (String × Json)) (m : String)
    (hp : parseJson s = some (Json.obj fields))
    (hm : jsGetField fields ("meta") = some (Json.obj metaFields))
    (hmsg : jsGetField metaFields ("message") = some (Json.str m)) :
    (∀ elems, m = "events" → jsGetField fields ("data") = some (Json.arr elems) →
      (∀ e ∈ elems, e ≠ Json.null) →
      handleFrame s = ⟨elems.map (fun e => (jsKeyOf e, some e)), false, false⟩) ∧
    (m ≠ "events" →
      handleFrame s = ⟨[(some (Json.str m), jsGetField fields ("data"))], false, false⟩) := by
  unfold handleFrame
  rw [hp]
  unfold handleMessage
  simp only [jsGet, hm, hmsg]
  constructor
  · intro elems he hdata hnn
    subst he
    simp only [hdata]
    simp [emitEvents_eq_map elems hnn]
  · intro hne
    simp [hne]

/-- Witness for C4 at the two concrete frames of the claim: the batched
frame emits exactly one event named EVT_WU_Connected whose payload is the
element itself, and the sync frame emits exactly one event named
device.sync whose payload is the data object. -/
theorem c4_dispatch_witness :
    handleFrame
        ("\x7b\"meta\":\x7b\"message\":\"events\"\x7d,\"data\":[\x7b\"key\":\"EVT_WU_Connected\",\"mac\":\"AA:BB:CC:DD:EE:FF\"\x7d]\x7d") =
      ⟨[(some (Json.str ("EVT_WU_Connected")),
         some (Json.obj [(("key"), Json.str ("EVT_WU_Connected")),
                         (("mac"), Json.str ("AA:BB:CC:DD:EE:FF"))]))], false, false⟩ ∧
      handleFrame
          ("\x7b\"meta\":\x7b\"message\":\"device.sync\"\x7d,\"data\":\x7b\"mac\":\"AA:BB:CC:DD:EE:FF\"\x7d\x7d") =
        ⟨[(some (Json.str ("device.sync")),
           some (Json.obj [(("mac"), Json.str ("AA:BB:CC:DD:EE:FF"))]))], false, false⟩ := by
  constructor
  · have h :=
      (c4_dispatch
        ("\x7b\"meta\":\x7b\"message\":\"events\"\x7d,\"data\":[\x7b\"key\":\"EVT_WU_Connected\",\"mac\":\"AA:BB:CC:DD:EE:FF\"\x7d]\x7d")
        [(("meta"), Json.obj [(("message"), Json.str ("events"))]),
         (("data"), Json.arr [Json.obj [(("key"), Json.str ("EVT_WU_Connected")),
                                        (("mac"), Json.str ("AA:BB:CC:DD:EE:FF"))]])]
        [(("message"), Json.str ("events"))] ("events") rfl rfl rfl).1
        [Json.obj [(("key"), Json.str ("EVT_WU_Connected")),
                   (("mac"), Json.str ("AA:BB:CC:DD:EE:FF"))]]
        rfl rfl (by intro e he; simp at he; subst he; simp)
    exact h.trans (by rfl)
  · have h :=
      (c4_dispatch
        ("\x7b\"meta\":\x7b\"message\":\"device.sync\"\x7d,\"data\":\x7b\"mac\":\"AA:BB:CC:DD:EE:FF\"\x7d\x7d")
        [(("meta"), Json.obj [(("message"), Json.str ("device.sync"))]),
         (("data"), Json.obj [(("mac"), Json.str ("AA:BB:CC:DD:EE:FF"))])]
        [(("message"), Json.str ("device.sync"))] ("device.sync") rfl rfl rfl).2
        (by decide)
    exact h.trans (by rfl)

/-- C8: in every filter-accepting query operation — getAlarms, getEvents
and getRogueAP — a caller who omits limit, or passes any non-positive
limit, gets a filter whose _limit member is the default 100. -/
theorem c8_limit_default (o : FilterOptions)
    (h : o.limit = none ∨ ∃ l, o.limit = some l ∧ l ≤ 0) :
    (alarmsFilter o)._limit = 100 ∧ (eventsFilter o)._limit = 100 ∧
      (rogueApFilter o)._limit = 100 := by
  rcases h with h | ⟨l, hl, hle⟩
  · simp [alarmsFilter, eventsFilter, rogueApFilter, h]
  · simp [alarmsFilter, eventsFilter, rogueApFilter, hl,
      if_neg (by omega : ¬ (0 : Int) < l)]

/-- Witness for C8 at the concrete input of the claim: limit = -5 yields
_limit = 100 in all three filters. -/
theorem c8_limit_default_witness :
    ((⟨none, some (-5), none, none⟩ : FilterOptions).limit = none ∨
        ∃ l, (⟨none, some (-5), none, none⟩ : FilterOptions).limit = some l ∧ l ≤ 0) ∧
      (alarmsFilter ⟨none, some (-5), none, none⟩)._limit = 100 ∧
      (eventsFilter ⟨none, some (-5), none, none⟩)._limit = 100 ∧
      (rogueApFilter ⟨none, some (-5), none, none⟩)._limit = 100 :=
  ⟨Or.inr ⟨-5, rfl, by norm_num⟩,
   c8_limit_default ⟨none, some (-5), none, none⟩ (Or.inr ⟨-5, rfl, by norm_num⟩)⟩

/-- C9: a macs filter that getClients / getDevices refuse — a value that is
neither string nor array, a single string failing the mac regex, or an
array containing an entry failing it — makes both operations reject with a
validation error before any network request is issued: the wrapper's step
is a rejection, not a request. -/
theorem c9_invalid_macs_reject (macs : MacsArg) (site : String)
    (h : badMacFilter macs = true) :
    ∃ msg, getClientsStep macs site = WrapperStep.reject msg ∧
      getDevicesStep macs site = WrapperStep.reject msg := by
  cases macs with
  | other =>
    exact ⟨("Filter must be a single mac address or an array of multiple mac addresses"),
      rfl, rfl⟩
  | str s =>
    have hv : isValidMacEntry s = false := by simpa [badMacFilter] using h
    exact ⟨("Invalid mac address specified"),
      by simp [getClientsStep, macFilteredQuery, hv],
      by simp [getDevicesStep, macFilteredQuery, hv]⟩
  | arr ms =>
    have hall : ms.all isValidMacEntry = false := by
      have hb : ms.any (fun m => !isValidMacEntry m) = true := by
        simpa [badMacFilter] using h
      simp [List.all_eq_not_any_not, hb]
    refine ⟨("Invalid mac address specified"), ?_, ?_⟩ <;>
      simp [getClientsStep, getDevicesStep, macFilteredQuery, hall]

/-- Witness for C9 at concrete inputs: the array containing the malformed
entry ZZ:ZZ:ZZ:ZZ:ZZ:ZZ is rejected by both operations before any request,
and so is a filter that is neither a string nor an array. -/
theorem c9_invalid_macs_reject_witness :
    badMacFilter (MacsArg.arr [("ZZ:ZZ:ZZ:ZZ:ZZ:ZZ")]) = true ∧
      (∃ msg, getClientsStep (MacsArg.arr [("ZZ:ZZ:ZZ:ZZ:ZZ:ZZ")]) ("default") =
          WrapperStep.reject msg ∧
        getDevicesStep (MacsArg.arr [("ZZ:ZZ:ZZ:ZZ:ZZ:ZZ")]) ("default") =
          WrapperStep.reject msg) ∧
      badMacFilter MacsArg.other = true ∧
      (∃ msg, getClientsStep MacsArg.other ("default") = WrapperStep.reject msg ∧
        getDevicesStep MacsArg.other ("default") = WrapperStep.reject msg) :=
  ⟨by decide,
   c9_invalid_macs_reject (MacsArg.arr [("ZZ:ZZ:ZZ:ZZ:ZZ:ZZ")]) ("default") (by decide),
   rfl,
   c9_invalid_macs_reject MacsArg.other ("default") rfl⟩

/-- C10: getSites resolves with the full response envelope — the object
holding both the response body and the response headers — while every
other query operation (getAlarms, getClients, getDevices, getEvents,
getHealth, getRogueAP, getRoutes, getSystemInfo) resolves with the member
access `response.data.data`, the inner data list of the response body; in
particular getSites' resolved value never coincides with getHealth's. -/
theorem c10_getsites_envelope (r : ApiResponse) :
    getSitesResolve r = Resolved.envelope r ∧
      getAlarmsResolve r = Resolved.inner (jsGet (some r.data) ("data")) ∧
      getClientsResolve r = Resolved.inner (jsGet (some r.data) ("data")) ∧
      getDevicesResolve r = Resolved.inner (jsGet (some r.data) ("data")) ∧
      getEventsResolve r = Resolved.inner (jsGet (some r.data) ("data")) ∧
      getHealthResolve r = Resolved.inner (jsGet (some r.data) ("data")) ∧
      getRogueApResolve r = Resolved.inner (jsGet (some r.data) ("data")) ∧
      getRoutesResolve r = Resolved.inner (jsGet (some r.data) ("data")) ∧
      getSystemInfoResolve r = Resolved.inner (jsGet (some r.data) ("data")) ∧
      getSitesResolve r ≠ getHealthResolve r := by
  refine ⟨rfl, rfl, rfl, rfl, rfl, rfl, rfl, rfl, rfl, ?_⟩
  simp [getSitesResolve, getHealthResolve]
